import Mathlib

/-!
Shallow embedding of `source/constructs/lib/constructs-stack.ts` from the
serverless-image-handler repository: the `ConstructsStack` constructor, which
assembles a CloudFormation template (parameters, metadata, mapping, nested
construct, outputs) as a pure in-memory graph.
-/

namespace ConstructsStack

/-- CloudFormation parameter types used by this stack: `String` and `Number`. -/
inductive ParamType where
  | string
  | number
deriving DecidableEq, Repr

/-- A CfnParameter declaration: the construct id (which is the logical id of
the parameter), type, description, default, and the optional `allowedValues`
and `allowedPattern` constraints, exactly the fields the source passes. -/
structure CfnParameterDecl where
  logicalId : String
  type : ParamType
  description : String
  default : String
  allowedValues : Option (List String) := none
  allowedPattern : Option String := none
deriving DecidableEq, Repr

/-- Value expression of a CfnOutput as used in the source: an `Fn.sub`
interpolation template, the `valueAsString` of a parameter, or an `Fn.ref`. -/
inductive OutputValue where
  | sub (template : String)
  | paramValueAsString (paramLogicalId : String)
  | ref (logicalId : String)
deriving DecidableEq, Repr

/-- A CfnOutput declaration: construct id, value, description, optional
condition (the name of the condition construct attached via the `condition`
prop), and the optional override installed by `overrideLogicalId`. -/
structure CfnOutputDecl where
  constructId : String
  value : OutputValue
  description : String
  condition : Option String := none
  overriddenLogicalId : Option String := none
deriving DecidableEq, Repr

/-- The externally visible logical id of an output: the overridden id when
`overrideLogicalId` was called, otherwise the construction-time id. -/
def CfnOutputDecl.logicalId (o : CfnOutputDecl) : String :=
  o.overriddenLogicalId.getD o.constructId

/-- One entry of the ParameterGroups block of the
`AWS::CloudFormation::Interface` metadata: a display label and the list of
member parameter logical ids. -/
structure ParameterGroup where
  label : String
  parameters : List String
deriving DecidableEq, Repr

/-- A CfnMapping declaration: construct id and its key-to-key-to-value table. -/
structure CfnMappingDecl where
  constructId : String
  mapping : List (String × List (String × String))
deriving DecidableEq, Repr

/-- The template graph assembled by the constructor: everything the source
appends to the stack during its single linear build pass. -/
structure Template where
  description : String
  templateFormatVersion : String
  parameters : List CfnParameterDecl
  parameterGroups : List ParameterGroup
  mappings : List CfnMappingDecl
  outputs : List CfnOutputDecl
deriving DecidableEq, Repr

/-- JavaScript string coercion applied by a template literal to the possibly
absent `VERSION` binding: an undefined value interpolates as the eight
characters of the word undefined. -/
def jsInterp : Option String → String
  | some s => s
  | none => "undefined"

/-- JavaScript-style reading of a decimal digit string as a number; used to
relate the Number-typed parameter whose default and allowed values are given
as decimal strings in the source to their numeric meaning. -/
def jsStringToNat (s : String) : Option Nat :=
  if !s.data.isEmpty && s.data.all Char.isDigit then
    some (s.data.foldl (fun n c => 10 * n + (c.toNat - 48)) 0)
  else none

/-- Source declaration of the CorsEnabled CfnParameter. -/
def corsEnabledParameter : CfnParameterDecl :=
  { logicalId := "CorsEnabled"
    type := .string
    description := "Would you like to enable Cross-Origin Resource Sharing (CORS) for the image handler API? Select \x27Yes\x27 if so."
    default := "No"
    allowedValues := some ["Yes", "No"] }

/-- Source declaration of the CorsOrigin CfnParameter. The source passes only
`type`, `description` and `default`: no `allowedValues` and no
`allowedPattern`. -/
def corsOriginParameter : CfnParameterDecl :=
  { logicalId := "CorsOrigin"
    type := .string
    description := "If you selected \x27Yes\x27 above, please specify an origin value here. Supports multiple origins given either as comma-separated string or RegExp."
    default := "*" }

/-- Source declaration of the SourceBuckets CfnParameter. -/
def sourceBucketsParameter : CfnParameterDecl :=
  { logicalId := "SourceBuckets"
    type := .string
    description := "(Required) List the buckets (comma-separated) within your account that contain original image files. If you plan to use Thumbor or Custom image requests with this solution, the source bucket for those requests will be the first bucket listed in this field."
    default := "defaultBucket, bucketNo2, bucketNo3, ..."
    allowedPattern := some ".+" }

/-- Source declaration of the DeployDemoUI CfnParameter. -/
def deployDemoUiParameter : CfnParameterDecl :=
  { logicalId := "DeployDemoUI"
    type := .string
    description := "Would you like to deploy a demo UI to explore the features and capabilities of this solution? This will create an additional Amazon S3 bucket and Amazon CloudFront distribution in your account."
    default := "Yes"
    allowedValues := some ["Yes", "No"] }

/-- Source declaration of the LogRetentionPeriod CfnParameter: type Number,
default the string 1, and seventeen allowed values given as decimal strings. -/
def logRetentionPeriodParameter : CfnParameterDecl :=
  { logicalId := "LogRetentionPeriod"
    type := .number
    description := "This solution automatically logs events to Amazon CloudWatch. Select the amount of time for CloudWatch logs from this solution to be retained (in days)."
    default := "1"
    allowedValues := some ["1", "3", "5", "7", "14", "30", "60", "90", "120", "150", "180", "365", "400", "545", "731", "1827", "3653"] }

/-- Source declaration of the AutoWebP CfnParameter. -/
def autoWebPParameter : CfnParameterDecl :=
  { logicalId := "AutoWebP"
    type := .string
    description := "Would you like to enable automatic WebP based on accept headers? Select \x27Yes\x27 if so."
    default := "No"
    allowedValues := some ["Yes", "No"] }

/-- Fixed text of the templateOptions description up to the interpolation of
VERSION at the end of the template literal. -/
def descriptionBeforeVersion : String :=
  "(SO0023) - Serverless Image Handler with aws-solutions-constructs: This template deploys and configures a serverless architecture that is optimized for dynamic image manipulation and delivery at low latency and cost. Leverages SharpJS for image processing. Template version "

/-- Modelled from the spec: the nested ServerlessImageHandler construct
(`./serverless-image-handler`, not part of this fragment) is expected to
internally create its own conditions named DeployDemoUICondition and
EnableCorsCondition, which the parent looks up with `node.findChild`. -/
def serverlessImageHandlerConditions : List String :=
  ["DeployDemoUICondition", "EnableCorsCondition"]

/-- The `node.findChild` lookup on the nested construct: a by-name lookup
among its children, failing (fatal construction-time error) when no child of
that name exists. -/
def findChildCondition (name : String) : Option String :=
  if name ∈ serverlessImageHandlerConditions then some name else none

/-- The ConstructsStack constructor as a pure template builder: one linear
pass declaring the six parameters, the template metadata, the Send mapping,
the nested construct, and the six outputs, in source order. `VERSION` is the
captured value of the VERSION environment variable (`none` when unset).
Returns `none` exactly when a `findChild` lookup of a named condition fails,
which the source treats as a fatal build error. -/
def buildConstructsStack (VERSION : Option String) : Option Template := do
  let demoCond ← findChildCondition "DeployDemoUICondition"
  let corsCond ← findChildCondition "EnableCorsCondition"
  pure
    { description := descriptionBeforeVersion ++ jsInterp VERSION
      templateFormatVersion := "2010-09-09"
      parameters :=
        [ corsEnabledParameter
        , corsOriginParameter
        , sourceBucketsParameter
        , deployDemoUiParameter
        , logRetentionPeriodParameter
        , autoWebPParameter ]
      parameterGroups :=
        [ { label := "CORS Options"
            parameters := [corsEnabledParameter.logicalId, corsOriginParameter.logicalId] }
        , { label := "Image Sources"
            parameters := [sourceBucketsParameter.logicalId] }
        , { label := "Demo UI"
            parameters := [deployDemoUiParameter.logicalId] }
        , { label := "Event Logging"
            parameters := [logRetentionPeriodParameter.logicalId] } ]
      mappings :=
        [ { constructId := "Send"
            mapping := [("AnonymousUsage", [("Data", "Yes")])] } ]
      outputs :=
        [ { constructId := "ApiEndpoint"
            value := .sub "https://${ImageHandlerDistribution.DomainName}"
            description := "Link to API endpoint for sending image requests to." }
        , { constructId := "DemoUrl"
            value := .sub "https://${DemoDistribution.DomainName}/index.html"
            description := "Link to the demo user interface for the solution."
            condition := some demoCond }
        , { constructId := "SourceBucketsOutput"
            value := .paramValueAsString "SourceBuckets"
            description := "Amazon S3 bucket location containing original image files."
            overriddenLogicalId := some "SourceBuckets" }
        , { constructId := "CorsEnabledOutput"
            value := .paramValueAsString "CorsEnabled"
            description := "Indicates whether Cross-Origin Resource Sharing (CORS) has been enabled for the image handler API."
            overriddenLogicalId := some "CorsEnabled" }
        , { constructId := "CorsOriginOutput"
            value := .paramValueAsString "CorsOrigin"
            description := "Origin value returned in the Access-Control-Allow-Origin header of image handler API responses."
            condition := some corsCond
            overriddenLogicalId := some "CorsOrigin" }
        , { constructId := "LogRetentionPeriodOutput"
            value := .ref "LogRetentionPeriod"
            description := "Number of days for event logs from Lambda to be retained in CloudWatch."
            overriddenLogicalId := some "LogRetentionPeriod" } ] }

/-- Placeholder template used only to state totality: the build never falls
back to it because both condition lookups succeed (see
`buildConstructsStack_eq_some`). -/
def fallbackTemplate : Template :=
  { description := ""
    templateFormatVersion := ""
    parameters := []
    parameterGroups := []
    mappings := []
    outputs := [] }

/-- The template the constructor produces. Both `findChild` lookups succeed
on the modelled child, so this is the unique template of
`buildConstructsStack`. -/
def builtTemplate (v : Option String) : Template :=
  (buildConstructsStack v).getD fallbackTemplate

/-- The build succeeds for every VERSION value: both condition lookups hit
children of the modelled nested construct. -/
theorem buildConstructsStack_eq_some (v : Option String) :
    buildConstructsStack v = some (builtTemplate v) := rfl

/-- Module-load capture of VERSION from `process.env`: the builder sees only
the value of the VERSION key of the environment, read once before the
constructor runs. -/
def moduleLoadVersion (env : String → Option String) : Option String :=
  env "VERSION"

/-- End-to-end build from a process environment: module-load capture of
VERSION followed by the constructor. -/
def buildFromEnv (env : String → Option String) : Option Template :=
  buildConstructsStack (moduleLoadVersion env)

/-- Full-string match semantics of the one `allowedPattern` occurring in this
template, the regular expression dot-plus (CloudFormation anchors the pattern
to the whole value): one or more characters, none being a newline. No other
pattern string occurs in this stack. -/
def patternFullMatch (pat : String) (s : String) : Bool :=
  if pat = ".+" then !s.data.isEmpty && s.data.all (fun c => c != '\n') else false

/-- A default of a parameter satisfies the declared constraints of that same
parameter: membership in `allowedValues` when present, full match of
`allowedPattern` when present. -/
def defaultSatisfiesConstraint (p : CfnParameterDecl) : Bool :=
  (match p.allowedValues with
    | some vs => p.default ∈ vs
    | none => true)
  && (match p.allowedPattern with
    | some pat => patternFullMatch pat p.default
    | none => true)

/-- The outputs of a template that are active (emitted) under a valuation of
the named conditions: an output guarded by a condition is emitted iff that
condition evaluates true; an unguarded output is always emitted. -/
def Template.activeOutputs (t : Template) (condEval : String → Bool) : List CfnOutputDecl :=
  t.outputs.filter fun o =>
    match o.condition with
    | some c => condEval c
    | none => true

/-- Whether the output with the given construct id is emitted under a
valuation of the named conditions. -/
def outputEmitted (t : Template) (cid : String) (condEval : String → Bool) : Bool :=
  (t.activeOutputs condEval).any fun o => o.constructId = cid

/-- The list of all parameter logical ids mentioned across the parameter
groups of the metadata, in order, with multiplicity. -/
def Template.groupedParamIds (t : Template) : List String :=
  (t.parameterGroups.map ParameterGroup.parameters).flatten

/-- The partition property as the spec states it: every declared parameter
appears in exactly one parameter group, and the groups mention only declared
parameters. -/
def groupsPartitionParams (t : Template) : Prop :=
  (∀ p ∈ t.parameters, t.groupedParamIds.count p.logicalId = 1)
  ∧ (∀ pid ∈ t.groupedParamIds, pid ∈ t.parameters.map CfnParameterDecl.logicalId)

instance (t : Template) : Decidable (groupsPartitionParams t) := by
  unfold groupsPartitionParams; infer_instance

end ConstructsStack

namespace ConstructsStack

/-- C1 counterexample: the claim as stated is false on the built template.
The parameter groups do not partition the declared parameters: AutoWebP is
declared but appears in no group. -/
theorem groups_do_not_partition_parameters :
    ¬ groupsPartitionParams (builtTemplate (some "v5.0.0")) := by decide

/-- C1 (amended): the four parameter groups appear in the fixed order CORS
Options, Image Sources, Demo UI, Event Logging; every declared parameter
except AutoWebP appears in exactly one group; AutoWebP appears in no group;
and the groups mention only declared parameters. -/
theorem parameter_groups_cover_all_but_autoWebP (v : Option String) :
    (builtTemplate v).parameterGroups.map ParameterGroup.label =
      ["CORS Options", "Image Sources", "Demo UI", "Event Logging"]
    ∧ (((builtTemplate v).parameters.map CfnParameterDecl.logicalId).filter
        (fun pid => !(pid = "AutoWebP"))).all
        (fun pid => (builtTemplate v).groupedParamIds.count pid == 1) = true
    ∧ (builtTemplate v).groupedParamIds.count "AutoWebP" = 0
    ∧ ((builtTemplate v).groupedParamIds.all
        (fun pid => pid ∈ (builtTemplate v).parameters.map CfnParameterDecl.logicalId)) = true :=
  ⟨rfl, rfl, rfl, rfl⟩

/-- C2 counterexample: the claim as stated is false on the built template.
The template declares six outputs, not five, and four of them carry an
overridden logical id, not three. -/
theorem outputs_not_five_overridden_not_three :
    ¬ ((builtTemplate (some "v5.0.0")).outputs.length = 5
      ∧ ((builtTemplate (some "v5.0.0")).outputs.filter
          (fun o => o.overriddenLogicalId.isSome)).length = 3) := by decide

/-- C2 (amended): the built template declares exactly six outputs, each
external logical id present exactly once; the four identifier-overridden
outputs expose the external logical ids SourceBuckets, CorsEnabled,
CorsOrigin and LogRetentionPeriod instead of their internal construction
names SourceBucketsOutput, CorsEnabledOutput, CorsOriginOutput,
LogRetentionPeriodOutput. -/
theorem outputs_six_unique_four_overridden (v : Option String) :
    (builtTemplate v).outputs.length = 6
    ∧ (builtTemplate v).outputs.map CfnOutputDecl.logicalId =
        ["ApiEndpoint", "DemoUrl", "SourceBuckets", "CorsEnabled", "CorsOrigin",
          "LogRetentionPeriod"]
    ∧ ((builtTemplate v).outputs.map CfnOutputDecl.logicalId).Nodup
    ∧ (builtTemplate v).outputs.filterMap
        (fun o => o.overriddenLogicalId.map (fun ext => (o.constructId, ext))) =
      [("SourceBucketsOutput", "SourceBuckets"), ("CorsEnabledOutput", "CorsEnabled"),
        ("CorsOriginOutput", "CorsOrigin"), ("LogRetentionPeriodOutput", "LogRetentionPeriod")] := by
  refine ⟨rfl, rfl, ?_, rfl⟩
  show (["ApiEndpoint", "DemoUrl", "SourceBuckets", "CorsEnabled", "CorsOrigin",
    "LogRetentionPeriod"] : List String).Nodup
  decide

/-- C3 counterexample: the claim as stated is false on the built template.
Not every declared parameter carries an allowed-value set or a pattern
constraint: CorsOrigin is declared with neither. -/
theorem not_every_parameter_constrained :
    ((builtTemplate (some "v5.0.0")).parameters.all
      (fun p => p.allowedValues.isSome || p.allowedPattern.isSome)) = false := by decide

/-- C3 (amended): every one of the six declared parameters registers a name,
a type (string or number), a non-empty description, and a default; five of
the six carry either an enumerated allowed-value set or a non-empty-string
pattern constraint, while CorsOrigin is declared with neither. -/
theorem five_parameters_constrained_corsOrigin_not (v : Option String) :
    (builtTemplate v).parameters.map CfnParameterDecl.logicalId =
      ["CorsEnabled", "CorsOrigin", "SourceBuckets", "DeployDemoUI", "LogRetentionPeriod",
        "AutoWebP"]
    ∧ ((builtTemplate v).parameters.all (fun p => !p.description.data.isEmpty)) = true
    ∧ ((builtTemplate v).parameters.all (fun p => !p.default.data.isEmpty)) = true
    ∧ (((builtTemplate v).parameters.filter (fun p => !(p.logicalId = "CorsOrigin"))).all
        (fun p => p.allowedValues.isSome || p.allowedPattern.isSome)) = true
    ∧ corsOriginParameter.allowedValues = none
    ∧ corsOriginParameter.allowedPattern = none
    ∧ corsOriginParameter ∈ (builtTemplate v).parameters := by
  refine ⟨rfl, rfl, rfl, rfl, rfl, rfl, ?_⟩
  show corsOriginParameter ∈
    [corsEnabledParameter, corsOriginParameter, sourceBucketsParameter, deployDemoUiParameter,
      logRetentionPeriodParameter, autoWebPParameter]
  simp

/-- C4: for every declared parameter, the declared default value satisfies
that same parameter's own declared constraint: membership in the enumerated
allowed-value set when one is present, and a match of the allowed pattern
when one is present. -/
theorem defaults_satisfy_own_constraints (v : Option String) :
    ((builtTemplate v).parameters.all defaultSatisfiesConstraint) = true := rfl

/-- C5: the DemoUrl output carries the condition DeployDemoUICondition looked
up from the sub-component and is emitted iff that condition evaluates true;
the CorsOriginOutput output carries the condition EnableCorsCondition and is
emitted iff that condition evaluates true; every other output carries no
condition (and so is always emitted). -/
theorem demoUrl_and_corsOrigin_conditioned (v : Option String) (condEval : String → Bool) :
    findChildCondition "DeployDemoUICondition" = some "DeployDemoUICondition"
    ∧ findChildCondition "EnableCorsCondition" = some "EnableCorsCondition"
    ∧ ((builtTemplate v).outputs.filterMap
        (fun o => if o.constructId = "DemoUrl" then some o.condition else none)) =
      [some "DeployDemoUICondition"]
    ∧ ((builtTemplate v).outputs.filterMap
        (fun o => if o.constructId = "CorsOriginOutput" then some o.condition else none)) =
      [some "EnableCorsCondition"]
    ∧ outputEmitted (builtTemplate v) "DemoUrl" condEval = condEval "DeployDemoUICondition"
    ∧ outputEmitted (builtTemplate v) "CorsOriginOutput" condEval
        = condEval "EnableCorsCondition"
    ∧ (((builtTemplate v).outputs.filter
        (fun o => !(o.constructId = "DemoUrl") && !(o.constructId = "CorsOriginOutput"))).all
        (fun o => o.condition == none)) = true
    ∧ (((builtTemplate v).outputs.filter
        (fun o => !(o.constructId = "DemoUrl") && !(o.constructId = "CorsOriginOutput"))).all
        (fun o => outputEmitted (builtTemplate v) o.constructId condEval)) = true := by
  refine ⟨rfl, rfl, rfl, rfl, ?_, ?_, rfl, ?_⟩ <;>
    cases h1 : condEval "DeployDemoUICondition" <;>
      cases h2 : condEval "EnableCorsCondition" <;>
        simp [outputEmitted, Template.activeOutputs, builtTemplate, buildConstructsStack,
          findChildCondition, serverlessImageHandlerConditions, List.filter_cons, h1, h2]

/-- C6: with every parameter left at its default, the effective values are
CorsEnabled No, SourceBuckets the placeholder string, DeployDemoUI Yes,
LogRetentionPeriod the number 1 (the Number-typed parameter's default string
reads as 1), and AutoWebP No. -/
theorem default_values_as_declared (v : Option String) :
    (builtTemplate v).parameters.map (fun p => (p.logicalId, p.default)) =
      [("CorsEnabled", "No"), ("CorsOrigin", "*"),
        ("SourceBuckets", "defaultBucket, bucketNo2, bucketNo3, ..."),
        ("DeployDemoUI", "Yes"), ("LogRetentionPeriod", "1"), ("AutoWebP", "No")]
    ∧ logRetentionPeriodParameter.type = ParamType.number
    ∧ jsStringToNat logRetentionPeriodParameter.default = some 1 :=
  ⟨rfl, rfl, rfl⟩

/-- C7: the template builder is deterministic; two runs on identical inputs
(the same captured VERSION value) produce structurally identical template
graphs. -/
theorem build_deterministic (v₁ v₂ : Option String) (h : v₁ = v₂) :
    buildConstructsStack v₁ = buildConstructsStack v₂ := by rw [h]

/-- C7 witness: two builds at the concrete version v5.0.0 agree. -/
theorem build_deterministic_witness :
    buildConstructsStack (some "v5.0.0") = buildConstructsStack (some "v5.0.0") :=
  build_deterministic (some "v5.0.0") (some "v5.0.0") rfl

/-- C8: for every VERSION value, the built template's description is the
fixed description text with that exact value appended at the end, and the
template format version is the static tag 2010-09-09. -/
theorem description_interpolates_version (s : String) :
    (builtTemplate (some s)).description = descriptionBeforeVersion ++ s
    ∧ (builtTemplate (some s)).templateFormatVersion = "2010-09-09" :=
  ⟨rfl, rfl⟩

/-- C9: LogRetentionPeriod is the only Number-typed parameter and its
enumerated allowed-value set reads as exactly the seventeen values 1, 3, 5,
7, 14, 30, 60, 90, 120, 150, 180, 365, 400, 545, 731, 1827, 3653; every
other declared parameter has type String. -/
theorem logRetentionPeriod_number_seventeen_values (v : Option String) :
    (builtTemplate v).parameters.map (fun p => (p.logicalId, p.type)) =
      [("CorsEnabled", ParamType.string), ("CorsOrigin", ParamType.string),
        ("SourceBuckets", ParamType.string), ("DeployDemoUI", ParamType.string),
        ("LogRetentionPeriod", ParamType.number), ("AutoWebP", ParamType.string)]
    ∧ logRetentionPeriodParameter.allowedValues =
        some ["1", "3", "5", "7", "14", "30", "60", "90", "120", "150", "180", "365", "400",
          "545", "731", "1827", "3653"]
    ∧ (logRetentionPeriodParameter.allowedValues.getD []).filterMap jsStringToNat =
        [1, 3, 5, 7, 14, 30, 60, 90, 120, 150, 180, 365, 400, 545, 731, 1827, 3653]
    ∧ (logRetentionPeriodParameter.allowedValues.getD []).length = 17 :=
  ⟨rfl, rfl, rfl, rfl⟩

/-- C10: the builder reads the environment only through the single VERSION
key captured at module load (environments agreeing on VERSION build the same
template), and when VERSION is unset the build still succeeds, with a
description ending in the literal text undefined. -/
theorem version_read_once_undefined_when_unset :
    (∀ env₁ env₂ : String → Option String,
        env₁ "VERSION" = env₂ "VERSION" → buildFromEnv env₁ = buildFromEnv env₂)
    ∧ buildFromEnv (fun _ => none) = some (builtTemplate none)
    ∧ (builtTemplate none).description = descriptionBeforeVersion ++ "undefined" := by
  refine ⟨?_, rfl, rfl⟩
  intro e₁ e₂ h
  simp [buildFromEnv, moduleLoadVersion, h]

/-- C10 witness: an empty environment and an environment carrying only an
unrelated key agree on VERSION and build the same template. -/
theorem version_read_once_witness :
    buildFromEnv (fun _ => none)
      = buildFromEnv (fun k => if k = "HOME" then some "/root" else none) :=
  version_read_once_undefined_when_unset.1 _ _ rfl

end ConstructsStack
